import Mathlib

/-!
Shallow embedding of the two AWS Lambda modules of the
Real-Estate-Investment-Dashboard repository
(src/lambda/property_valuation.py and src/lambda/data_aggregation.py).

Python floats are modelled as exact rationals (ℚ), Python ints as ℤ.
Every call to the `random` module is modelled by an explicit parameter:
a function `ℕ → _` supplies the value returned by the n-th call of a
sampling site that is executed inside a loop, and a plain value models a
sampling site executed once.  Fields derived from the wall clock
(`datetime.now()` strings) carry no data relevant to any claim and are
omitted from the record types.

`round(x, 2)` in Python rounds to 2 decimal places with ties going to the
even last digit (banker's rounding); `rhe` below is that integer rounding
and `round2` the 2-decimal version.
-/

/-- Round a rational to the nearest integer, ties to even
(Python's round-half-even). -/
def rhe (x : ℚ) : ℤ :=
  if Int.fract x = 1 / 2 then (if 2 ∣ ⌊x⌋ then ⌊x⌋ else ⌊x⌋ + 1) else round x

/-- Python's round(x, 2): round to 2 decimal places, ties to even. -/
def round2 (x : ℚ) : ℚ :=
  (rhe (x * 100) : ℚ) / 100

lemma rhe_intCast (n : ℤ) : rhe (n : ℚ) = n := by
  unfold rhe
  rw [Int.fract_intCast]
  simp [round_intCast]

lemma le_rhe (x : ℚ) : x - 1 / 2 ≤ (rhe x : ℚ) := by
  unfold rhe
  split_ifs with h h2
  · have hx : (⌊x⌋ : ℚ) = x - 1 / 2 := by
      have := Int.fract_add_floor x
      rw [h] at this
      linarith
    rw [hx]
  · have hx : (⌊x⌋ : ℚ) = x - 1 / 2 := by
      have := Int.fract_add_floor x
      rw [h] at this
      linarith
    push_cast
    rw [hx]
    linarith
  · have := abs_sub_round x
    rw [abs_le] at this
    linarith [this.1]

lemma rhe_le (x : ℚ) : (rhe x : ℚ) ≤ x + 1 / 2 := by
  unfold rhe
  split_ifs with h h2
  · have hx : (⌊x⌋ : ℚ) = x - 1 / 2 := by
      have := Int.fract_add_floor x
      rw [h] at this
      linarith
    rw [hx]
    linarith
  · have hx : (⌊x⌋ : ℚ) = x - 1 / 2 := by
      have := Int.fract_add_floor x
      rw [h] at this
      linarith
    push_cast
    rw [hx]
    linarith
  · have := abs_sub_round x
    rw [abs_le] at this
    linarith [this.2]

lemma floor_le_rhe (x : ℚ) : ⌊x⌋ ≤ rhe x := by
  unfold rhe
  split_ifs with h h2
  · exact le_refl _
  · omega
  · rw [round_eq]
    exact Int.floor_mono (by linarith)

lemma rhe_le_floor_add_one (x : ℚ) : rhe x ≤ ⌊x⌋ + 1 := by
  unfold rhe
  split_ifs with h h2
  · omega
  · exact le_refl _
  · rw [round_eq]
    have : x + 1 / 2 < (⌊x⌋ : ℚ) + 1 + 1 / 2 := by
      have := Int.lt_floor_add_one x
      linarith
    have h3 : ⌊x + 1 / 2⌋ < ⌊x⌋ + 2 := by
      apply Int.floor_lt.2
      push_cast
      linarith
    omega

lemma rhe_mono {x y : ℚ} (hxy : x ≤ y) : rhe x ≤ rhe y := by
  rcases lt_or_le ⌊x⌋ ⌊y⌋ with hf | hf
  · calc rhe x ≤ ⌊x⌋ + 1 := rhe_le_floor_add_one x
      _ ≤ ⌊y⌋ := by omega
      _ ≤ rhe y := floor_le_rhe y
  · have hfe : ⌊x⌋ = ⌊y⌋ := le_antisymm (Int.floor_mono hxy) hf
    have hfr : Int.fract x ≤ Int.fract y := by
      unfold Int.fract
      rw [hfe]
      linarith
    by_cases hx : Int.fract x = 1 / 2
    · by_cases hy : Int.fract y = 1 / 2
      · have hexy : x = y := by
          have hx2 := Int.fract_add_floor x
          have hy2 := Int.fract_add_floor y
          rw [hx] at hx2
          rw [hy] at hy2
          rw [hfe] at hx2
          linarith
        rw [hexy]
      · have hgt : Int.fract y > 1 / 2 := lt_of_le_of_ne (hx ▸ hfr) (Ne.symm hy)
        have hcalc : rhe y = round y := by unfold rhe; rw [if_neg hy]
        have hry : round y = ⌊y⌋ + 1 := by
          rw [round_eq]
          have h1 : (⌊y⌋ : ℚ) + 1 ≤ y + 1 / 2 := by
            unfold Int.fract at hgt
            linarith
          have h2 : y + 1 / 2 < (⌊y⌋ : ℚ) + 2 := by
            have := Int.lt_floor_add_one y
            linarith
          have hh1 : ⌊y⌋ + 1 ≤ ⌊y + 1 / 2⌋ := by
            apply Int.le_floor.2
            push_cast
            linarith
          have hh2 : ⌊y + 1 / 2⌋ < ⌊y⌋ + 2 := by
            apply Int.floor_lt.2
            push_cast
            linarith
          omega
        rw [hcalc, hry, ← hfe]
        exact rhe_le_floor_add_one x
    · by_cases hy : Int.fract y = 1 / 2
      · have hlt : Int.fract x < 1 / 2 := lt_of_le_of_ne (hy ▸ hfr) hx
        have hcalc : rhe x = round x := by unfold rhe; rw [if_neg hx]
        have hrx : round x = ⌊x⌋ := by
          rw [round_eq]
          have h1 : x + 1 / 2 < (⌊x⌋ : ℚ) + 1 := by
            unfold Int.fract at hlt
            linarith
          have h2 : (⌊x⌋ : ℚ) ≤ x + 1 / 2 := by
            have := Int.floor_le x
            linarith
          have hh1 : ⌊x⌋ ≤ ⌊x + 1 / 2⌋ := Int.le_floor.2 (by push_cast; linarith)
          have hh2 : ⌊x + 1 / 2⌋ < ⌊x⌋ + 1 := Int.floor_lt.2 (by push_cast; linarith)
          omega
        rw [hcalc, hrx, hfe]
        exact floor_le_rhe y
      · have hcx : rhe x = round x := by unfold rhe; rw [if_neg hx]
        have hcy : rhe y = round y := by unfold rhe; rw [if_neg hy]
        rw [hcx, hcy, round_eq, round_eq]
        exact Int.floor_mono (by linarith)

lemma round2_sub_le (x : ℚ) : round2 x - x ≤ 1 / 200 := by
  unfold round2
  have := rhe_le (x * 100)
  linarith

lemma sub_round2_le (x : ℚ) : x - round2 x ≤ 1 / 200 := by
  unfold round2
  have := le_rhe (x * 100)
  linarith

lemma round2_mono {x y : ℚ} (hxy : x ≤ y) : round2 x ≤ round2 y := by
  unfold round2
  have h := rhe_mono (mul_le_mul_of_nonneg_right hxy (by norm_num : (0:ℚ) ≤ 100))
  have : ((rhe (x * 100) : ℚ)) ≤ ((rhe (y * 100) : ℚ)) := by exact_mod_cast h
  linarith

lemma round2_int_div (n : ℤ) : round2 ((n : ℚ) / 100) = (n : ℚ) / 100 := by
  unfold round2
  rw [div_mul_cancel₀ _ (by norm_num : (100:ℚ) ≠ 0), rhe_intCast]

namespace PropertyValuation

/-- One comparable-sale record produced by `property_valuation`
(the `sold_date` string, derived from the wall clock, is omitted). -/
structure CompRec where
  address_num : ℤ
  sold_price : ℤ
  sqft : ℤ
  beds : ℤ
  baths : ℤ
deriving DecidableEq

/-- The `factors` sub-object of the valuation body. -/
structure Factors where
  market_adjustment : ℚ
  location_factor : ℚ
  condition_factor : ℚ
deriving DecidableEq

/-- Body returned by `property_valuation` (`valuation_date` omitted). -/
structure ValuationBody where
  property_id : Option String
  current_value : ℚ
  confidence_score : ℚ
  factors : Factors
  comparables : List CompRec
  value_range_low : ℚ
  value_range_high : ℚ
deriving DecidableEq

/-- One month of market trend data (`month` string omitted). -/
structure MarketTrend where
  median_price : ℤ
  listings : ℤ
  days_on_market : ℤ
  price_per_sqft : ℤ
deriving DecidableEq

/-- Body returned by `market_analysis` (`analysis_date` omitted). -/
structure MarketBody where
  property_id : Option String
  market_trends : List MarketTrend
  market_health : String
  buyer_demand : String
  inventory_level : ℚ
  recommendation : String
deriving DecidableEq

/-- One entry of the `predictions` list of `value_prediction`. -/
structure Prediction where
  month : ℕ
  predicted_value : ℚ
  confidence : ℚ
deriving DecidableEq

/-- Body returned by `value_prediction` (`prediction_date` omitted). -/
structure PredictionBody where
  property_id : Option String
  current_value : ℤ
  predictions : List Prediction
  annual_growth_rate : ℚ
  risk_factors : List String
deriving DecidableEq

/-- The JSON body of a response of the valuation Lambda: one of the three
operation bodies, or the error object `{'error': msg}` which holds nothing
but the message string. -/
inductive ValBody where
  | valuation (b : ValuationBody)
  | market (b : MarketBody)
  | prediction (b : PredictionBody)
  | error (msg : String)
deriving DecidableEq

/-- A Lambda response envelope of property_valuation.py. -/
structure ValResult where
  statusCode : ℕ
  body : ValBody
deriving DecidableEq

/-- The `property_id` field of a response body, when the body has one. -/
def ValBody.propertyId : ValBody → Option (Option String)
  | .valuation b => some b.property_id
  | .market b => some b.property_id
  | .prediction b => some b.property_id
  | .error _ => none

/-- The valuation body of a response, when it is one. -/
def ValResult.valuationBody : ValResult → Option ValuationBody
  | ⟨_, .valuation b⟩ => some b
  | _ => none

/-- The prediction body of a response, when it is one. -/
def ValResult.predictionBody : ValResult → Option PredictionBody
  | ⟨_, .prediction b⟩ => some b
  | _ => none

/-- Random draws consumed by `property_valuation`: `base_value` is
`random.randint(300000, 800000)`, the three factors and the confidence are
`random.uniform` draws, and the five streams supply the per-iteration
draws of the comparables loop. -/
structure ValuationRng where
  base_value : ℤ
  market_adjustment : ℚ
  location_factor : ℚ
  condition_factor : ℚ
  confidence_score : ℚ
  comp_addr : ℕ → ℤ
  comp_price : ℕ → ℤ
  comp_sqft : ℕ → ℤ
  comp_beds : ℕ → ℤ
  comp_baths : ℕ → ℤ

/-- Random draws consumed by `market_analysis`. -/
structure MarketRng where
  median_price : ℕ → ℤ
  listings : ℕ → ℤ
  days_on_market : ℕ → ℤ
  price_per_sqft : ℕ → ℤ
  market_health : String
  buyer_demand : String
  inventory_level : ℚ
  coin : ℚ

/-- Random draws consumed by `value_prediction`: `current_value` is the
single `random.randint(400000, 700000)` draw, `growth_rate i` the
`random.uniform(0.002, 0.008)` draw made inside the loop iteration of
month `i` (the loop body samples a fresh rate every iteration), and
`annual_growth_rate` the final `random.uniform(3, 8)` draw. -/
structure PredictionRng where
  current_value : ℤ
  growth_rate : ℕ → ℚ
  annual_growth_rate : ℚ

/-- All randomness available to one invocation of the valuation Lambda. -/
structure ValRng where
  valuation : ValuationRng
  market : MarketRng
  prediction : PredictionRng

/-- The event object of the valuation Lambda; `event.get` of a missing key
is `None`, modelled by `none`. -/
structure ValEvent where
  property_id : Option String
  analysis_type : Option String

/-- property_valuation.py, `property_valuation`: current value is the
product of the base value and the three factors; the returned value is
that product rounded to 2 decimals and the value range is ±10 % of the
unrounded product, each bound rounded to 2 decimals. -/
def property_valuation (property_id : Option String) (rng : ValuationRng) : ValResult :=
  let current_value : ℚ :=
    (rng.base_value : ℚ) * rng.market_adjustment * rng.location_factor * rng.condition_factor
  { statusCode := 200,
    body := ValBody.valuation {
      property_id := property_id
      current_value := round2 current_value
      confidence_score := rng.confidence_score
      factors := ⟨rng.market_adjustment, rng.location_factor, rng.condition_factor⟩
      comparables := (List.range 5).map (fun k =>
        ⟨rng.comp_addr k, rng.comp_price k, rng.comp_sqft k, rng.comp_beds k, rng.comp_baths k⟩)
      value_range_low := round2 (current_value * (9 / 10))
      value_range_high := round2 (current_value * (11 / 10)) } }

/-- property_valuation.py, `market_analysis`. -/
def market_analysis (property_id : Option String) (rng : MarketRng) : ValResult :=
  { statusCode := 200,
    body := ValBody.market {
      property_id := property_id
      market_trends := (List.range 12).map (fun i =>
        ⟨rng.median_price i, rng.listings i, rng.days_on_market i, rng.price_per_sqft i⟩)
      market_health := rng.market_health
      buyer_demand := rng.buyer_demand
      inventory_level := rng.inventory_level
      recommendation := if rng.coin > 1 / 2 then "Hold" else "Consider Selling" } }

/-- The prediction record of month `i` built by the loop body of
`value_prediction`: the rate sampled in that iteration is `rates i`. -/
def predictionAt (current_value : ℤ) (rates : ℕ → ℚ) (i : ℕ) : Prediction :=
  { month := i
    predicted_value := round2 ((current_value : ℚ) * (1 + rates i) ^ i)
    confidence := max (95 / 100 - (i : ℚ) * (5 / 100)) (1 / 2) }

/-- property_valuation.py, `value_prediction`: the loop runs over
`i = 1..12` and builds `predictionAt` records. -/
def value_prediction (property_id : Option String) (rng : PredictionRng) : ValResult :=
  { statusCode := 200,
    body := ValBody.prediction {
      property_id := property_id
      current_value := rng.current_value
      predictions := (List.range 12).map (fun k => predictionAt rng.current_value rng.growth_rate (k + 1))
      annual_growth_rate := rng.annual_growth_rate
      risk_factors := ["Interest rate changes", "Local market conditions", "Economic indicators"] } }

/-- property_valuation.py, `lambda_handler`: dispatch on
`event.get('analysis_type', 'valuation')`. -/
def lambda_handler (event : ValEvent) (rng : ValRng) : ValResult :=
  let property_id := event.property_id
  let analysis_type := event.analysis_type.getD "valuation"
  if analysis_type = "valuation" then property_valuation property_id rng.valuation
  else if analysis_type = "market_analysis" then market_analysis property_id rng.market
  else if analysis_type = "prediction" then value_prediction property_id rng.prediction
  else { statusCode := 400, body := ValBody.error "Invalid analysis type" }

end PropertyValuation

namespace DataAggregation

/-- One property record built by the loop of `aggregate_portfolio_data`
(`last_updated` omitted). -/
structure PropRec where
  property_id : ℕ
  current_value : ℤ
  monthly_income : ℤ
  monthly_expenses : ℤ
  occupancy_rate : ℚ
deriving DecidableEq

/-- Body returned by `aggregate_portfolio_data` (`aggregation_date`
omitted). -/
structure PortfolioBody where
  user_id : String
  total_properties : ℕ
  total_value : ℤ
  total_monthly_income : ℤ
  total_monthly_expenses : ℤ
  net_monthly_income : ℤ
  average_occupancy : ℚ
  portfolio_roi : ℚ
  properties : List PropRec
deriving DecidableEq

/-- The `metrics` object of `aggregate_performance_metrics`. -/
structure PerfMetrics where
  ytd_return : ℚ
  mtd_return : ℚ
  total_roi : ℚ
  cash_on_cash_return : ℚ
  cap_rate : ℚ
  gross_rent_multiplier : ℚ
deriving DecidableEq

/-- One month of `monthly_performance` (`month` string omitted). -/
structure PerfMonth where
  revenue : ℤ
  expenses : ℤ
  net_income : ℤ
  occupancy : ℚ
deriving DecidableEq

/-- A best/worst performing property record. -/
structure PerfProp where
  id : ℤ
  name : String
  roi : ℚ
deriving DecidableEq

/-- Body returned by `aggregate_performance_metrics` (`calculation_date`
omitted). -/
structure PerformanceBody where
  user_id : String
  metrics : PerfMetrics
  monthly_performance : List PerfMonth
  best_performing_property : PerfProp
  worst_performing_property : PerfProp
deriving DecidableEq

/-- The `income` sub-object of a cash-flow item. -/
structure CfIncome where
  rental : ℤ
  other : ℤ
deriving DecidableEq

/-- The `expenses` sub-object of a cash-flow item. -/
structure CfExpenses where
  mortgage : ℤ
  maintenance : ℤ
  property_tax : ℤ
  insurance : ℤ
  utilities : ℤ
  management : ℤ
deriving DecidableEq

/-- One month of the `cashflow_summary` list; `month` is the loop index
(the `'%Y-%m'` date string it is rendered as is omitted). -/
structure CashflowItem where
  month : ℕ
  income : CfIncome
  expenses : CfExpenses
  net_cashflow : ℤ
  cumulative_cashflow : ℤ
deriving DecidableEq

/-- Body returned by `aggregate_cashflow_data` (`aggregation_date`
omitted). -/
structure CashflowBody where
  user_id : String
  cashflow_summary : List CashflowItem
  total_income_ytd : ℤ
  total_expenses_ytd : ℤ
  net_cashflow_ytd : ℤ
  average_monthly_cashflow : ℚ
deriving DecidableEq

/-- The maintenance type drawn by
`random.choice(['Routine', 'Emergency', 'Preventive', 'Upgrade'])`:
`random.choice` always yields one of the four listed values. -/
inductive MType where
  | Routine
  | Emergency
  | Preventive
  | Upgrade
deriving DecidableEq

/-- One maintenance record (`date` omitted). -/
structure MItem where
  id : ℕ
  property_id : ℤ
  type : MType
  category : String
  cost : ℤ
  status : String
  vendor : ℤ
deriving DecidableEq

/-- The `maintenance_by_type` object: one count per known type value. -/
structure TypeCounts where
  routine : ℕ
  emergency : ℕ
  preventive : ℕ
  upgrade : ℕ
deriving DecidableEq

/-- Body returned by `aggregate_maintenance_data` (`aggregation_date`
omitted). -/
structure MaintenanceBody where
  user_id : String
  maintenance_items : List MItem
  total_maintenance_cost : ℤ
  average_cost_per_item : ℚ
  maintenance_by_type : TypeCounts
  upcoming_maintenance : ℤ
deriving DecidableEq

/-- The JSON body of a response of the aggregation Lambda: one of the four
operation bodies, or the error object `{'error': msg}` which holds nothing
but the message string. -/
inductive AggBody where
  | portfolio (b : PortfolioBody)
  | performance (b : PerformanceBody)
  | cashflow (b : CashflowBody)
  | maintenance (b : MaintenanceBody)
  | error (msg : String)
deriving DecidableEq

/-- A Lambda response envelope of data_aggregation.py. -/
structure AggResult where
  statusCode : ℕ
  body : AggBody
deriving DecidableEq

/-- The portfolio body of a response, when it is one. -/
def AggResult.portfolioBody : AggResult → Option PortfolioBody
  | ⟨_, .portfolio b⟩ => some b
  | _ => none

/-- The cashflow body of a response, when it is one. -/
def AggResult.cashflowBody : AggResult → Option CashflowBody
  | ⟨_, .cashflow b⟩ => some b
  | _ => none

/-- The maintenance body of a response, when it is one. -/
def AggResult.maintenanceBody : AggResult → Option MaintenanceBody
  | ⟨_, .maintenance b⟩ => some b
  | _ => none

/-- Random draws consumed by `aggregate_portfolio_data`: one draw per
stream per loop iteration `i = 1..12`. -/
structure PortfolioRng where
  value : ℕ → ℤ
  income : ℕ → ℤ
  expenses : ℕ → ℤ
  occupancy_rate : ℕ → ℚ

/-- Random draws consumed by `aggregate_performance_metrics`. -/
structure PerformanceRng where
  metrics : PerfMetrics
  revenue : ℕ → ℤ
  expenses : ℕ → ℤ
  net_income : ℕ → ℤ
  occupancy : ℕ → ℚ
  best_id : ℤ
  best_roi : ℚ
  worst_id : ℤ
  worst_roi : ℚ

/-- Random draws consumed by `aggregate_cashflow_data`: one draw per
stream per month `0..5`. -/
structure CashflowRng where
  rental_income : ℕ → ℤ
  other_income : ℕ → ℤ
  mortgage_payments : ℕ → ℤ
  maintenance : ℕ → ℤ
  property_tax : ℕ → ℤ
  insurance : ℕ → ℤ
  utilities : ℕ → ℤ
  property_management : ℕ → ℤ

/-- Random draws consumed by `aggregate_maintenance_data`: one draw per
stream per record `0..19`. -/
structure MaintenanceRng where
  property_id : ℕ → ℤ
  type : ℕ → MType
  category : ℕ → String
  cost : ℕ → ℤ
  status : ℕ → String
  vendor : ℕ → ℤ
  upcoming_maintenance : ℤ

/-- All randomness available to one invocation of the aggregation Lambda. -/
structure AggRng where
  portfolio : PortfolioRng
  performance : PerformanceRng
  cashflow : CashflowRng
  maintenance : MaintenanceRng

/-- The event object of the aggregation Lambda; `event.get` of a missing
key is its default (`'portfolio'` for `type`, `'1'` for `user_id`). -/
structure AggEvent where
  type : Option String
  user_id : Option String

/-- data_aggregation.py, `aggregate_portfolio_data`: the loop over
`i = 1..12` appends a record and accumulates the three running totals in
one pass, exactly as the Python loop mutates its accumulators. -/
def aggregate_portfolio_data (user_id : String) (rng : PortfolioRng) : AggResult :=
  let st := (List.range 12).foldl
    (fun (s : List PropRec × ℤ × ℤ × ℤ) k =>
      let i := k + 1
      (s.1 ++ [{ property_id := i
                 current_value := rng.value i
                 monthly_income := rng.income i
                 monthly_expenses := rng.expenses i
                 occupancy_rate := rng.occupancy_rate i }],
       s.2.1 + rng.value i, s.2.2.1 + rng.income i, s.2.2.2 + rng.expenses i))
    ([], 0, 0, 0)
  let properties := st.1
  let total_value := st.2.1
  let total_income := st.2.2.1
  let total_expenses := st.2.2.2
  { statusCode := 200,
    body := AggBody.portfolio {
      user_id := user_id
      total_properties := properties.length
      total_value := total_value
      total_monthly_income := total_income
      total_monthly_expenses := total_expenses
      net_monthly_income := total_income - total_expenses
      average_occupancy := (properties.map (·.occupancy_rate)).sum / (properties.length : ℚ)
      portfolio_roi := ((total_income - total_expenses : ℚ) * 12 / (total_value : ℚ)) * 100
      properties := properties } }

/-- data_aggregation.py, `aggregate_performance_metrics`. -/
def aggregate_performance_metrics (user_id : String) (rng : PerformanceRng) : AggResult :=
  { statusCode := 200,
    body := AggBody.performance {
      user_id := user_id
      metrics := rng.metrics
      monthly_performance := (List.range 12).map (fun i =>
        ⟨rng.revenue i, rng.expenses i, rng.net_income i, rng.occupancy i⟩)
      best_performing_property := ⟨rng.best_id, "Sunset Plaza Apartments", rng.best_roi⟩
      worst_performing_property := ⟨rng.worst_id, "Riverside Condominiums", rng.worst_roi⟩ } }

/-- The cash-flow item of month `month` built by the loop body of
`aggregate_cashflow_data`: `total_expenses` sums the six expense draws,
`net_cashflow` subtracts it from the rental income alone, and
`cumulative_cashflow` multiplies that month's net cash flow by
`month + 1`. -/
def cashflowItemAt (rng : CashflowRng) (month : ℕ) : CashflowItem :=
  let total_expenses := rng.mortgage_payments month + rng.maintenance month +
    rng.property_tax month + rng.insurance month + rng.utilities month +
    rng.property_management month
  let net_cashflow := rng.rental_income month - total_expenses
  { month := month
    income := { rental := rng.rental_income month, other := rng.other_income month }
    expenses := { mortgage := rng.mortgage_payments month
                  maintenance := rng.maintenance month
                  property_tax := rng.property_tax month
                  insurance := rng.insurance month
                  utilities := rng.utilities month
                  management := rng.property_management month }
    net_cashflow := net_cashflow
    cumulative_cashflow := net_cashflow * ((month : ℤ) + 1) }

/-- data_aggregation.py, `aggregate_cashflow_data`: the loop runs over
`month = 0..5` and appends `cashflowItemAt` records. -/
def aggregate_cashflow_data (user_id : String) (rng : CashflowRng) : AggResult :=
  let cashflow_items := (List.range 6).map (cashflowItemAt rng)
  { statusCode := 200,
    body := AggBody.cashflow {
      user_id := user_id
      cashflow_summary := cashflow_items
      total_income_ytd := (cashflow_items.map (fun it => it.income.rental + it.income.other)).sum
      total_expenses_ytd := (cashflow_items.map (fun it =>
        it.expenses.mortgage + it.expenses.maintenance + it.expenses.property_tax +
        it.expenses.insurance + it.expenses.utilities + it.expenses.management)).sum
      net_cashflow_ytd := (cashflow_items.map (·.net_cashflow)).sum
      average_monthly_cashflow :=
        ((cashflow_items.map (·.net_cashflow)).sum : ℚ) / (cashflow_items.length : ℚ) } }

/-- data_aggregation.py, `aggregate_maintenance_data`: 20 records, then a
total, an average and per-type counts computed by filtering the list. -/
def aggregate_maintenance_data (user_id : String) (rng : MaintenanceRng) : AggResult :=
  let maintenance_items := (List.range 20).map (fun k =>
    { id := k + 1
      property_id := rng.property_id k
      type := rng.type k
      category := rng.category k
      cost := rng.cost k
      status := rng.status k
      vendor := rng.vendor k : MItem })
  let total_cost := (maintenance_items.map (·.cost)).sum
  { statusCode := 200,
    body := AggBody.maintenance {
      user_id := user_id
      maintenance_items := maintenance_items
      total_maintenance_cost := total_cost
      average_cost_per_item := (total_cost : ℚ) / (maintenance_items.length : ℚ)
      maintenance_by_type :=
        { routine := (maintenance_items.filter (fun m => m.type = MType.Routine)).length
          emergency := (maintenance_items.filter (fun m => m.type = MType.Emergency)).length
          preventive := (maintenance_items.filter (fun m => m.type = MType.Preventive)).length
          upgrade := (maintenance_items.filter (fun m => m.type = MType.Upgrade)).length }
      upcoming_maintenance := rng.upcoming_maintenance } }

/-- data_aggregation.py, `lambda_handler`: dispatch on
`event.get('type', 'portfolio')` with `event.get('user_id', '1')`. -/
def lambda_handler (event : AggEvent) (rng : AggRng) : AggResult :=
  let aggregation_type := event.type.getD "portfolio"
  let user_id := event.user_id.getD "1"
  if aggregation_type = "portfolio" then aggregate_portfolio_data user_id rng.portfolio
  else if aggregation_type = "performance" then aggregate_performance_metrics user_id rng.performance
  else if aggregation_type = "cashflow" then aggregate_cashflow_data user_id rng.cashflow
  else if aggregation_type = "maintenance" then aggregate_maintenance_data user_id rng.maintenance
  else { statusCode := 400, body := AggBody.error "Invalid aggregation type" }

end DataAggregation

/-- Rounding a rational with at most 2 decimal places is the identity. -/
lemma round2_intCast (n : ℤ) : round2 (n : ℚ) = n := by
  have h : ((n : ℚ)) = ((n * 100 : ℤ) : ℚ) / 100 := by push_cast; field_simp
  rw [h, round2_int_div]

/-- A growth-rate stream within the documented range [0.002, 0.008] that
draws 0.008 in the first loop iteration and 0.002 afterwards. -/
def cexRates : ℕ → ℚ := fun i => if i ≤ 1 then 8 / 1000 else 2 / 1000

/-- C1 counterexample: a single fixed rate cannot reproduce the
series produced by the per-iteration rates of `cexRates`. -/
theorem C1_no_single_rate :
    (∀ i, 1 ≤ i → i ≤ 12 → 2 / 1000 ≤ cexRates i ∧ cexRates i ≤ 8 / 1000) ∧
    ¬ ∃ g : ℚ, ∀ i, 1 ≤ i → i ≤ 12 →
      (PropertyValuation.predictionAt 500000 cexRates i).predicted_value =
        round2 ((500000 : ℚ) * (1 + g) ^ i) := by
  constructor
  · intro i h1 h2
    unfold cexRates
    split_ifs <;> norm_num
  · rintro ⟨g, h⟩
    have h1 := h 1 (by norm_num) (by norm_num)
    have h2 := h 2 (by norm_num) (by norm_num)
    have e1 : (PropertyValuation.predictionAt 500000 cexRates 1).predicted_value = 504000 := by
      unfold PropertyValuation.predictionAt cexRates
      norm_num
      exact_mod_cast round2_intCast 504000
    have e2 : (PropertyValuation.predictionAt 500000 cexRates 2).predicted_value = 502002 := by
      unfold PropertyValuation.predictionAt cexRates
      norm_num
      exact_mod_cast round2_intCast 502002
    rw [e1] at h1
    rw [e2] at h2
    have ha : (500000 : ℚ) * (1 + g) ^ 1 ≥ 504000 - 1 / 200 := by
      have := round2_sub_le ((500000 : ℚ) * (1 + g) ^ 1)
      rw [← h1] at this
      linarith
    have hb : (500000 : ℚ) * (1 + g) ^ 2 ≤ 502002 + 1 / 200 := by
      have := sub_round2_le ((500000 : ℚ) * (1 + g) ^ 2)
      rw [← h2] at this
      linarith
    rw [pow_one] at ha
    rw [pow_two] at hb
    nlinarith [sq_nonneg (500000 * (1 + g) - 100799999 / 200)]

/-- C1, amended: inside `value_prediction` the growth rate is resampled on
every loop iteration; the record of month `i` uses the rate of iteration
`i`. -/
theorem C1_growth_rate_per_iteration (pid : Option String)
    (rng : PropertyValuation.PredictionRng) (i : ℕ) (h1 : 1 ≤ i) (h2 : i ≤ 12) :
    ∃ pb, (PropertyValuation.value_prediction pid rng).predictionBody = some pb ∧
      pb.predictions[i - 1]? =
        some (PropertyValuation.predictionAt rng.current_value rng.growth_rate i) ∧
      (PropertyValuation.predictionAt rng.current_value rng.growth_rate i).predicted_value =
        round2 ((rng.current_value : ℚ) * (1 + rng.growth_rate i) ^ i) := by
  refine ⟨_, rfl, ?_, rfl⟩
  have hi : i - 1 < 12 := by omega
  show ((List.range 12).map
      (fun k => PropertyValuation.predictionAt rng.current_value rng.growth_rate (k + 1)))[i - 1]? = _
  rw [List.getElem?_map, List.getElem?_range hi]
  simp only [Option.map_some']
  rw [Nat.sub_add_cancel h1]

/-- Concrete zero-valued random streams for witnesses. -/
def zeroPredictionRng : PropertyValuation.PredictionRng :=
  ⟨0, fun _ => 0, 0⟩

/-- Witness for C1 at month 1 with the zero stream. -/
theorem C1_growth_rate_per_iteration_witness :
    ∃ pb, (PropertyValuation.value_prediction none zeroPredictionRng).predictionBody = some pb ∧
      pb.predictions[0]? =
        some (PropertyValuation.predictionAt zeroPredictionRng.current_value
          zeroPredictionRng.growth_rate 1) ∧
      (PropertyValuation.predictionAt zeroPredictionRng.current_value
          zeroPredictionRng.growth_rate 1).predicted_value =
        round2 ((zeroPredictionRng.current_value : ℚ) *
          (1 + zeroPredictionRng.growth_rate 1) ^ 1) :=
  C1_growth_rate_per_iteration none zeroPredictionRng 1 (by norm_num) (by norm_num)

/-- C3, amended: the prediction series is monotone nondecreasing when every
iteration samples one and the same nonnegative rate. -/
theorem C3_monotone_for_constant_rate (cv : ℤ) (r : ℚ) (hcv : 0 ≤ cv) (hr : 0 ≤ r)
    (i j : ℕ) (hi : 1 ≤ i) (hij : i ≤ j) (hj : j ≤ 12) :
    (PropertyValuation.predictionAt cv (fun _ => r) i).predicted_value ≤
      (PropertyValuation.predictionAt cv (fun _ => r) j).predicted_value := by
  unfold PropertyValuation.predictionAt
  apply round2_mono
  apply mul_le_mul_of_nonneg_left _ (by exact_mod_cast hcv)
  exact pow_le_pow_right₀ (by linarith) hij

/-- Witness for C3 at cv = 400000, r = 0.005, i = 1, j = 12. -/
theorem C3_monotone_for_constant_rate_witness :
    (PropertyValuation.predictionAt 400000 (fun _ => 5 / 1000) 1).predicted_value ≤
      (PropertyValuation.predictionAt 400000 (fun _ => 5 / 1000) 12).predicted_value :=
  C3_monotone_for_constant_rate 400000 (5 / 1000) (by norm_num) (by norm_num)
    1 12 (by norm_num) (by norm_num) (by norm_num)

/-- C3 counterexample: with the per-iteration rates that the code actually
samples, every rate positive and inside the documented range, the series
is not monotone: month 1 exceeds month 2. -/
theorem C3_not_monotone_with_resampled_rates :
    (∀ i, 1 ≤ i → i ≤ 12 → 0 < cexRates i) ∧
    ¬ ((PropertyValuation.predictionAt 400000 cexRates 1).predicted_value ≤
        (PropertyValuation.predictionAt 400000 cexRates 2).predicted_value) := by
  constructor
  · intro i h1 h2
    unfold cexRates
    split_ifs <;> norm_num
  · unfold PropertyValuation.predictionAt cexRates
    norm_num
    have e1 : round2 (403200 : ℚ) = 403200 := by exact_mod_cast round2_intCast 403200
    have e2 : round2 ((2008008 : ℚ) / 5) = 2008008 / 5 := by
      have h : (2008008 : ℚ) / 5 = ((40160160 : ℤ) : ℚ) / 100 := by norm_num
      rw [h, round2_int_div]
    rw [e1, e2]
    norm_num

/-- Concrete cash-flow draws: rental 40000, other 2000, expenses
20000 + 2000 + 3000 + 1500 + 1000 + 3000 = 30500 every month. -/
def cexCashflowRng : DataAggregation.CashflowRng :=
  ⟨fun _ => 40000, fun _ => 2000, fun _ => 20000, fun _ => 2000, fun _ => 3000,
   fun _ => 1500, fun _ => 1000, fun _ => 3000⟩

/-- Concrete cash-flow draws whose rental income differs between months. -/
def cexCashflowRng2 : DataAggregation.CashflowRng :=
  { cexCashflowRng with rental_income := fun m => 40000 + 1000 * (m : ℤ) }

/-- C2, amended: the net cash flow of each generated month is the rental
income minus the sum of the six expense fields; the `other` income field
is not part of it. -/
theorem C2_net_is_rental_minus_expenses (uid : String)
    (rng : DataAggregation.CashflowRng) (m : ℕ) (hm : m < 6) :
    ∃ cb, (DataAggregation.aggregate_cashflow_data uid rng).cashflowBody = some cb ∧
      cb.cashflow_summary[m]? = some (DataAggregation.cashflowItemAt rng m) ∧
      (DataAggregation.cashflowItemAt rng m).net_cashflow =
        (DataAggregation.cashflowItemAt rng m).income.rental -
          ((DataAggregation.cashflowItemAt rng m).expenses.mortgage +
           (DataAggregation.cashflowItemAt rng m).expenses.maintenance +
           (DataAggregation.cashflowItemAt rng m).expenses.property_tax +
           (DataAggregation.cashflowItemAt rng m).expenses.insurance +
           (DataAggregation.cashflowItemAt rng m).expenses.utilities +
           (DataAggregation.cashflowItemAt rng m).expenses.management) := by
  refine ⟨_, rfl, ?_, rfl⟩
  show ((List.range 6).map (DataAggregation.cashflowItemAt rng))[m]? = _
  rw [List.getElem?_map, List.getElem?_range hm]
  rfl

/-- Witness for C2 at month 0 of the concrete draws. -/
theorem C2_net_is_rental_minus_expenses_witness :
    ∃ cb, (DataAggregation.aggregate_cashflow_data "1" cexCashflowRng).cashflowBody = some cb ∧
      cb.cashflow_summary[0]? = some (DataAggregation.cashflowItemAt cexCashflowRng 0) ∧
      (DataAggregation.cashflowItemAt cexCashflowRng 0).net_cashflow =
        (DataAggregation.cashflowItemAt cexCashflowRng 0).income.rental -
          ((DataAggregation.cashflowItemAt cexCashflowRng 0).expenses.mortgage +
           (DataAggregation.cashflowItemAt cexCashflowRng 0).expenses.maintenance +
           (DataAggregation.cashflowItemAt cexCashflowRng 0).expenses.property_tax +
           (DataAggregation.cashflowItemAt cexCashflowRng 0).expenses.insurance +
           (DataAggregation.cashflowItemAt cexCashflowRng 0).expenses.utilities +
           (DataAggregation.cashflowItemAt cexCashflowRng 0).expenses.management) :=
  C2_net_is_rental_minus_expenses "1" cexCashflowRng 0 (by norm_num)

/-- C2 counterexample: with other income 2000 the claimed formula
rental + other − expenses (= 11500) differs from the net cash flow the
code computes (= 9500). -/
theorem C2_other_income_excluded :
    ¬ ((DataAggregation.cashflowItemAt cexCashflowRng 0).net_cashflow =
        (DataAggregation.cashflowItemAt cexCashflowRng 0).income.rental +
        (DataAggregation.cashflowItemAt cexCashflowRng 0).income.other -
          ((DataAggregation.cashflowItemAt cexCashflowRng 0).expenses.mortgage +
           (DataAggregation.cashflowItemAt cexCashflowRng 0).expenses.maintenance +
           (DataAggregation.cashflowItemAt cexCashflowRng 0).expenses.property_tax +
           (DataAggregation.cashflowItemAt cexCashflowRng 0).expenses.insurance +
           (DataAggregation.cashflowItemAt cexCashflowRng 0).expenses.utilities +
           (DataAggregation.cashflowItemAt cexCashflowRng 0).expenses.management)) := by
  decide

/-- C4: each month's cumulative cash flow is that month's net cash flow
times (month index + 1), and at the concrete draws it differs from the
running sum of the distinct months' nets. -/
theorem C4_cumulative_is_net_times_index :
    (∀ (rng : DataAggregation.CashflowRng) (m : ℕ), m < 6 →
      (DataAggregation.cashflowItemAt rng m).cumulative_cashflow =
        (DataAggregation.cashflowItemAt rng m).net_cashflow * ((m : ℤ) + 1)) ∧
    (DataAggregation.cashflowItemAt cexCashflowRng2 1).cumulative_cashflow ≠
      (DataAggregation.cashflowItemAt cexCashflowRng2 0).net_cashflow +
      (DataAggregation.cashflowItemAt cexCashflowRng2 1).net_cashflow := by
  constructor
  · intro rng m hm
    rfl
  · decide

/-- Witness for C4 at month 2 of the concrete draws. -/
theorem C4_cumulative_is_net_times_index_witness :
    (DataAggregation.cashflowItemAt cexCashflowRng 2).cumulative_cashflow =
      (DataAggregation.cashflowItemAt cexCashflowRng 2).net_cashflow * (((2 : ℕ) : ℤ) + 1) :=
  C4_cumulative_is_net_times_index.1 cexCashflowRng 2 (by norm_num)

/-- C5: the three portfolio totals accumulated by the loop equal the sums
of the corresponding fields over the 12 generated records, and the net
monthly income is income minus expenses. -/
theorem C5_portfolio_totals (uid : String) (rng : DataAggregation.PortfolioRng) :
    ∃ pb, (DataAggregation.aggregate_portfolio_data uid rng).portfolioBody = some pb ∧
      pb.properties.length = 12 ∧
      pb.total_value = (pb.properties.map (·.current_value)).sum ∧
      pb.total_monthly_income = (pb.properties.map (·.monthly_income)).sum ∧
      pb.total_monthly_expenses = (pb.properties.map (·.monthly_expenses)).sum ∧
      pb.net_monthly_income = pb.total_monthly_income - pb.total_monthly_expenses := by
  refine ⟨_, rfl, ?_, ?_, ?_, ?_, rfl⟩ <;>
  · simp [DataAggregation.aggregate_portfolio_data, List.range_succ]
    try ring

/-- A list of maintenance items splits into the four type buckets. -/
lemma mtype_counts_sum (l : List DataAggregation.MItem) :
    (l.filter (fun m => m.type = DataAggregation.MType.Routine)).length +
    (l.filter (fun m => m.type = DataAggregation.MType.Emergency)).length +
    (l.filter (fun m => m.type = DataAggregation.MType.Preventive)).length +
    (l.filter (fun m => m.type = DataAggregation.MType.Upgrade)).length = l.length := by
  induction l with
  | nil => rfl
  | cons a l ih =>
    cases h : a.type <;>
      simp [List.filter_cons, h, List.length_cons] <;> omega

/-- C6: the four per-type counts of `maintenance_by_type` always sum to
20, the number of generated maintenance records. -/
theorem C6_type_counts_sum_to_twenty (uid : String) (rng : DataAggregation.MaintenanceRng) :
    ∃ mb, (DataAggregation.aggregate_maintenance_data uid rng).maintenanceBody = some mb ∧
      mb.maintenance_items.length = 20 ∧
      mb.maintenance_by_type.routine + mb.maintenance_by_type.emergency +
        mb.maintenance_by_type.preventive + mb.maintenance_by_type.upgrade = 20 := by
  refine ⟨_, rfl, ?_, ?_⟩
  · simp [DataAggregation.aggregate_maintenance_data]
  · show (List.filter _ ((List.range 20).map _)).length +
      (List.filter _ ((List.range 20).map _)).length +
      (List.filter _ ((List.range 20).map _)).length +
      (List.filter _ ((List.range 20).map _)).length = 20
    rw [mtype_counts_sum]
    simp

/-- Zero-valued valuation draws for witnesses. -/
def zeroValuationRng : PropertyValuation.ValuationRng :=
  ⟨0, 0, 0, 0, 0, fun _ => 0, fun _ => 0, fun _ => 0, fun _ => 0, fun _ => 0⟩

/-- Zero-valued market draws for witnesses. -/
def zeroMarketRng : PropertyValuation.MarketRng :=
  ⟨fun _ => 0, fun _ => 0, fun _ => 0, fun _ => 0, "Stable", "Medium", 0, 0⟩

/-- Concrete randomness for one valuation Lambda invocation. -/
def zeroValRng : PropertyValuation.ValRng :=
  ⟨zeroValuationRng, zeroMarketRng, zeroPredictionRng⟩

/-- Zero-valued portfolio draws for witnesses. -/
def zeroPortfolioRng : DataAggregation.PortfolioRng :=
  ⟨fun _ => 0, fun _ => 0, fun _ => 0, fun _ => 0⟩

/-- Zero-valued performance draws for witnesses. -/
def zeroPerformanceRng : DataAggregation.PerformanceRng :=
  ⟨⟨0, 0, 0, 0, 0, 0⟩, fun _ => 0, fun _ => 0, fun _ => 0, fun _ => 0, 0, 0, 0, 0⟩

/-- Zero-valued maintenance draws for witnesses. -/
def zeroMaintenanceRng : DataAggregation.MaintenanceRng :=
  ⟨fun _ => 0, fun _ => DataAggregation.MType.Routine, fun _ => "", fun _ => 0,
   fun _ => "", fun _ => 0, 0⟩

/-- Concrete randomness for one aggregation Lambda invocation. -/
def zeroAggRng : DataAggregation.AggRng :=
  ⟨zeroPortfolioRng, zeroPerformanceRng, cexCashflowRng, zeroMaintenanceRng⟩

/-- C7: an unrecognized selector yields status 400 with an error-only body
(for the valuation Lambda exactly the string "Invalid analysis type"), and
every recognized selector yields status 200, in both dispatchers. -/
theorem C7_dispatch_status_codes :
    (∀ (e : DataAggregation.AggEvent) (rng : DataAggregation.AggRng),
      e.type.getD "portfolio" ∉
          (["portfolio", "performance", "cashflow", "maintenance"] : List String) →
        (DataAggregation.lambda_handler e rng).statusCode = 400 ∧
        ∃ msg, (DataAggregation.lambda_handler e rng).body =
          DataAggregation.AggBody.error msg) ∧
    (∀ (e : PropertyValuation.ValEvent) (rng : PropertyValuation.ValRng),
      e.analysis_type.getD "valuation" ∉
          (["valuation", "market_analysis", "prediction"] : List String) →
        (PropertyValuation.lambda_handler e rng).statusCode = 400 ∧
        (PropertyValuation.lambda_handler e rng).body =
          PropertyValuation.ValBody.error "Invalid analysis type") ∧
    (∀ (e : DataAggregation.AggEvent) (rng : DataAggregation.AggRng),
      e.type.getD "portfolio" ∈
          (["portfolio", "performance", "cashflow", "maintenance"] : List String) →
        (DataAggregation.lambda_handler e rng).statusCode = 200) ∧
    (∀ (e : PropertyValuation.ValEvent) (rng : PropertyValuation.ValRng),
      e.analysis_type.getD "valuation" ∈
          (["valuation", "market_analysis", "prediction"] : List String) →
        (PropertyValuation.lambda_handler e rng).statusCode = 200) := by
  refine ⟨?_, ?_, ?_, ?_⟩
  · intro e rng h
    simp only [List.mem_cons, List.not_mem_nil, or_false, not_or] at h
    obtain ⟨h1, h2, h3, h4⟩ := h
    refine ⟨?_, "Invalid aggregation type", ?_⟩ <;>
      simp [DataAggregation.lambda_handler, h1, h2, h3, h4]
  · intro e rng h
    simp only [List.mem_cons, List.not_mem_nil, or_false, not_or] at h
    obtain ⟨h1, h2, h3⟩ := h
    refine ⟨?_, ?_⟩ <;>
      simp [PropertyValuation.lambda_handler, h1, h2, h3]
  · intro e rng h
    simp only [List.mem_cons, List.not_mem_nil, or_false] at h
    rcases h with h | h | h | h <;>
      simp [DataAggregation.lambda_handler, h,
        DataAggregation.aggregate_portfolio_data,
        DataAggregation.aggregate_performance_metrics,
        DataAggregation.aggregate_cashflow_data,
        DataAggregation.aggregate_maintenance_data]
  · intro e rng h
    simp only [List.mem_cons, List.not_mem_nil, or_false] at h
    rcases h with h | h | h <;>
      simp [PropertyValuation.lambda_handler, h,
        PropertyValuation.property_valuation,
        PropertyValuation.market_analysis,
        PropertyValuation.value_prediction]

/-- Witness for C7: the selector "bogus" gives 400 in both dispatchers,
the selectors "portfolio" and "valuation" give 200. -/
theorem C7_dispatch_status_codes_witness :
    ((DataAggregation.lambda_handler ⟨some "bogus", none⟩ zeroAggRng).statusCode = 400 ∧
      ∃ msg, (DataAggregation.lambda_handler ⟨some "bogus", none⟩ zeroAggRng).body =
        DataAggregation.AggBody.error msg) ∧
    ((PropertyValuation.lambda_handler ⟨none, some "bogus"⟩ zeroValRng).statusCode = 400 ∧
      (PropertyValuation.lambda_handler ⟨none, some "bogus"⟩ zeroValRng).body =
        PropertyValuation.ValBody.error "Invalid analysis type") ∧
    (DataAggregation.lambda_handler ⟨some "portfolio", none⟩ zeroAggRng).statusCode = 200 ∧
    (PropertyValuation.lambda_handler ⟨none, some "valuation"⟩ zeroValRng).statusCode = 200 :=
  ⟨C7_dispatch_status_codes.1 ⟨some "bogus", none⟩ zeroAggRng (by decide),
   C7_dispatch_status_codes.2.1 ⟨none, some "bogus"⟩ zeroValRng (by decide),
   C7_dispatch_status_codes.2.2.1 ⟨some "portfolio", none⟩ zeroAggRng (by decide),
   C7_dispatch_status_codes.2.2.2 ⟨none, some "valuation"⟩ zeroValRng (by decide)⟩

/-- C9: on an unrecognized selector the aggregation dispatcher returns the
envelope 400 / error "Invalid aggregation type", the valuation dispatcher
400 / error "Invalid analysis type"; the status codes agree and only the
two strings differ. -/
theorem C9_error_envelopes (eA : DataAggregation.AggEvent) (rngA : DataAggregation.AggRng)
    (eB : PropertyValuation.ValEvent) (rngB : PropertyValuation.ValRng)
    (hA : eA.type.getD "portfolio" ∉
      (["portfolio", "performance", "cashflow", "maintenance"] : List String))
    (hB : eB.analysis_type.getD "valuation" ∉
      (["valuation", "market_analysis", "prediction"] : List String)) :
    DataAggregation.lambda_handler eA rngA =
      ⟨400, DataAggregation.AggBody.error "Invalid aggregation type"⟩ ∧
    PropertyValuation.lambda_handler eB rngB =
      ⟨400, PropertyValuation.ValBody.error "Invalid analysis type"⟩ ∧
    (DataAggregation.lambda_handler eA rngA).statusCode =
      (PropertyValuation.lambda_handler eB rngB).statusCode ∧
    ("Invalid aggregation type" : String) ≠ "Invalid analysis type" := by
  simp only [List.mem_cons, List.not_mem_nil, or_false, not_or] at hA hB
  obtain ⟨a1, a2, a3, a4⟩ := hA
  obtain ⟨b1, b2, b3⟩ := hB
  have e1 : DataAggregation.lambda_handler eA rngA =
      ⟨400, DataAggregation.AggBody.error "Invalid aggregation type"⟩ := by
    simp [DataAggregation.lambda_handler, a1, a2, a3, a4]
  have e2 : PropertyValuation.lambda_handler eB rngB =
      ⟨400, PropertyValuation.ValBody.error "Invalid analysis type"⟩ := by
    simp [PropertyValuation.lambda_handler, b1, b2, b3]
  refine ⟨e1, e2, ?_, by decide⟩
  rw [e1, e2]

/-- Witness for C9 with the selector "bogus" in both dispatchers. -/
theorem C9_error_envelopes_witness :
    DataAggregation.lambda_handler ⟨some "bogus", none⟩ zeroAggRng =
      ⟨400, DataAggregation.AggBody.error "Invalid aggregation type"⟩ ∧
    PropertyValuation.lambda_handler ⟨none, some "bogus"⟩ zeroValRng =
      ⟨400, PropertyValuation.ValBody.error "Invalid analysis type"⟩ ∧
    (DataAggregation.lambda_handler ⟨some "bogus", none⟩ zeroAggRng).statusCode =
      (PropertyValuation.lambda_handler ⟨none, some "bogus"⟩ zeroValRng).statusCode ∧
    ("Invalid aggregation type" : String) ≠ "Invalid analysis type" :=
  C9_error_envelopes ⟨some "bogus", none⟩ zeroAggRng ⟨none, some "bogus"⟩ zeroValRng
    (by decide) (by decide)

/-- C10: invoking the valuation Lambda with a recognized selector and no
property_id returns status 200 and a body whose property_id field is
None. -/
theorem C10_property_id_passthrough (t : String) (rng : PropertyValuation.ValRng)
    (ht : t ∈ (["valuation", "market_analysis", "prediction"] : List String)) :
    (PropertyValuation.lambda_handler ⟨none, some t⟩ rng).statusCode = 200 ∧
    (PropertyValuation.lambda_handler ⟨none, some t⟩ rng).body.propertyId = some none := by
  simp only [List.mem_cons, List.not_mem_nil, or_false] at ht
  rcases ht with h | h | h <;>
    subst h <;>
    exact ⟨rfl, rfl⟩

/-- Witness for C10 with the selector "prediction". -/
theorem C10_property_id_passthrough_witness :
    (PropertyValuation.lambda_handler ⟨none, some "prediction"⟩ zeroValRng).statusCode = 200 ∧
    (PropertyValuation.lambda_handler ⟨none, some "prediction"⟩ zeroValRng).body.propertyId =
      some none :=
  C10_property_id_passthrough "prediction" zeroValRng (by decide)

/-- C8: the returned current value is the rounded product of the base
value and the three factors, and the value range is the ±10 % band around
the unrounded product, each bound rounded to 2 decimals. -/
theorem C8_valuation_value_and_range (pid : Option String)
    (rng : PropertyValuation.ValuationRng) :
    ∃ vb, (PropertyValuation.property_valuation pid rng).valuationBody = some vb ∧
      vb.current_value = round2 ((rng.base_value : ℚ) * rng.market_adjustment *
        rng.location_factor * rng.condition_factor) ∧
      vb.value_range_low = round2 ((rng.base_value : ℚ) * rng.market_adjustment *
        rng.location_factor * rng.condition_factor * (9 / 10)) ∧
      vb.value_range_high = round2 ((rng.base_value : ℚ) * rng.market_adjustment *
        rng.location_factor * rng.condition_factor * (11 / 10)) :=
  ⟨_, rfl, rfl, rfl, rfl⟩
